import Mathlib

/-!
Shallow embedding of `src/index.ts` of the `synced` repository: a Cloudflare
Worker acting as a caching, authenticating reverse proxy in front of the
GitHub Maven package registry.

The worker is a single exported `fetch` handler plus three helpers
(`stripBody`, `isAllowedPath`, `isAllowedExtension`).  The embedding models:

* the configuration object `env` (`Env` below; optional fields are `Option
  String`, JavaScript truthiness of strings is `jsTruthy`);
* the inbound request as its method, URL pathname and headers (`Req`; the
  `pathname` field stands for `new URL(request.url).pathname`, parsed by the
  platform);
* `Response` values as `Resp` (status, statusText, headers, optional body);
* the shared `caches.default` store as an explicit association list from
  cache keys to stored responses, threaded through the handler; a
  `ctx.waitUntil(cache.put ...)` becomes an update of that state;
* the global `fetch` to the upstream as a function parameter from the
  outbound request to `Except Unit UpstreamResp` — `Except.error ()` is a
  network-level throw, `Except.ok` any delivered HTTP response;
* JavaScript exceptions (`new RegExp` syntax errors, the `TypeError` from
  calling `.split` on `undefined`) as the `Except WorkerError` result of the
  handler: the source has no try/catch around the two authorizers, so those
  exceptions propagate out of the handler uncaught.

ECMAScript `RegExp` is a platform builtin; it is modelled by a concrete
compiler (`compileRegex`, which can fail like `new RegExp(...)` does on a
malformed pattern) and a Brzozowski-derivative matcher (`RE.test`, unanchored
like `RegExp.prototype.test`).  The model covers literals, `.`, grouping,
alternation, `*`/`+`/`?` (with lazy `?` suffix) and character classes;
anchors and bounded quantifiers are out of scope — no theorem below depends
on the matching semantics, only on compilation success/failure.
-/

/-- ASCII lower-casing of a character, for case-insensitive header names. -/
def lowerChar (c : Char) : Char :=
  if 'A' ≤ c ∧ c ≤ 'Z' then Char.ofNat (c.toNat + 32) else c

/-- ASCII lower-casing of a string. -/
def lowerStr (s : String) : String :=
  ⟨s.data.map lowerChar⟩

/-- Case-insensitive equality of header names (Fetch `Headers` semantics). -/
def headerNameEq (a b : String) : Bool :=
  lowerStr a == lowerStr b

/-- Header list; `Headers.get(name)` is case-insensitive. -/
def headersGet (hs : List (String × String)) (name : String) : Option String :=
  (hs.find? (fun p => headerNameEq p.1 name)).map (fun p => p.2)

/-- Fetch `Headers.set(name, value)`: replace any entry with the same
(case-insensitive) name by a single entry with the new value. -/
def headersSet (hs : List (String × String)) (name value : String) :
    List (String × String) :=
  (hs.filter (fun p => !headerNameEq p.1 name)) ++ [(name, value)]

/-- JavaScript string truthiness of a possibly-undefined string field:
`undefined` and the empty string are falsy. -/
def jsTruthy : Option String → Bool
  | none => false
  | some s => !(s == "")

/-- JavaScript `String.prototype.split(',')` — split at every comma; always returns at
least one element (`"".split(',')` is `[""]`). -/
def jsSplitCommaAux : List Char → List Char → List String
  | [], acc => [⟨acc.reverse⟩]
  | ',' :: rest, acc => ⟨acc.reverse⟩ :: jsSplitCommaAux rest []
  | c :: rest, acc => jsSplitCommaAux rest (c :: acc)

/-- Evaluate `s.split(',')`. -/
def jsSplitComma (s : String) : List String :=
  jsSplitCommaAux s.data []

/-- Whitespace removed by `String.prototype.trim` (ASCII portion). -/
def isJsWhitespace (c : Char) : Bool :=
  c == ' ' || c == '\t' || c == '\n' || c == '\r'

/-- JavaScript `String.prototype.trim()`. -/
def jsTrim (s : String) : String :=
  ⟨((s.data.dropWhile isJsWhitespace).reverse.dropWhile isJsWhitespace).reverse⟩

/-- JavaScript `String.prototype.endsWith(sfx)`; every string ends with `""`. -/
def jsEndsWith (s sfx : String) : Bool :=
  sfx.data.isSuffixOf s.data

/-- Lines 9–11 of the handler: `if (path.startsWith('/')) path = path.slice(1)`. -/
def stripLeadingSlash (p : String) : String :=
  match p.data with
  | '/' :: rest => ⟨rest⟩
  | _ => p

/-- Evaluate `a || d` for a possibly-null, possibly-empty string (empty is falsy). -/
def jsOrDefault (o : Option String) (d : String) : String :=
  match o with
  | none => d
  | some v => if v == "" then d else v

/-- An exception thrown by the worker code: a `SyntaxError` from
`new RegExp` on a malformed pattern, or the `TypeError` raised by
`env.ALLOWED_EXTENSIONS.split(',')` when the field is `undefined`. -/
inductive WorkerError where
  | regexInvalid (pat : String)
  | typeError (msg : String)

/-- Test for `Except.error`, used to state that the handler or a compilation
step throws rather than producing a value. -/
def exceptFailed {α : Type} : Except WorkerError α → Bool
  | Except.error _ => true
  | Except.ok _ => false

/-! ### Model of ECMAScript regular expressions -/

/-- One item of a character class `[...]`. -/
inductive ClassItem where
  | single (c : Char)
  | range (lo hi : Char)
  | digit
  | notDigit
  | word
  | notWord
  | space
  | notSpace

/-- Regular-expression abstract syntax. -/
inductive RE where
  | emp
  | eps
  | chr (c : Char)
  | anyChar
  | cls (neg : Bool) (items : List ClassItem)
  | alt (a b : RE)
  | cat (a b : RE)
  | star (a : RE)

/-- Digit test for `\d`. -/
def isDigitChar (c : Char) : Bool :=
  decide ('0' ≤ c) && decide (c ≤ '9')

/-- Word-character test for `\w`. -/
def isWordChar (c : Char) : Bool :=
  isDigitChar c || (decide ('a' ≤ c) && decide (c ≤ 'z'))
    || (decide ('A' ≤ c) && decide (c ≤ 'Z')) || c == '_'

/-- Whitespace test for `\s` (ASCII portion). -/
def isSpaceChar (c : Char) : Bool :=
  c == ' ' || c == '\t' || c == '\n' || c == '\r' || c == '\x0b' || c == '\x0c'

/-- Whether a class item matches a character. -/
def classItemMatches (it : ClassItem) (c : Char) : Bool :=
  match it with
  | ClassItem.single a => a == c
  | ClassItem.range lo hi => decide (lo ≤ c) && decide (c ≤ hi)
  | ClassItem.digit => isDigitChar c
  | ClassItem.notDigit => !isDigitChar c
  | ClassItem.word => isWordChar c
  | ClassItem.notWord => !isWordChar c
  | ClassItem.space => isSpaceChar c
  | ClassItem.notSpace => !isSpaceChar c

/-- Whether the regular expression accepts the empty string. -/
def RE.nullable : RE → Bool
  | RE.emp => false
  | RE.eps => true
  | RE.chr _ => false
  | RE.anyChar => false
  | RE.cls _ _ => false
  | RE.alt a b => a.nullable || b.nullable
  | RE.cat a b => a.nullable && b.nullable
  | RE.star _ => true

/-- Brzozowski derivative with respect to one character. -/
def RE.deriv : RE → Char → RE
  | RE.emp, _ => RE.emp
  | RE.eps, _ => RE.emp
  | RE.chr a, c => if a == c then RE.eps else RE.emp
  | RE.anyChar, c => if c == '\n' then RE.emp else RE.eps
  | RE.cls neg items, c =>
    if (items.any (fun it => classItemMatches it c)) != neg then RE.eps else RE.emp
  | RE.alt a b, c => RE.alt (a.deriv c) (b.deriv c)
  | RE.cat a b, c =>
    if a.nullable then RE.alt (RE.cat (a.deriv c) b) (b.deriv c)
    else RE.cat (a.deriv c) b
  | RE.star a, c => RE.cat (a.deriv c) (RE.star a)

/-- Whether some prefix of the character list matches the expression. -/
def hasMatchFrom (r : RE) : List Char → Bool
  | [] => r.nullable
  | c :: rest => r.nullable || hasMatchFrom (r.deriv c) rest

/-- Whether some substring starting at any position matches (unanchored
search, as performed by `RegExp.prototype.test`). -/
def searchAll (r : RE) : List Char → Bool
  | [] => hasMatchFrom r []
  | c :: rest => hasMatchFrom r (c :: rest) || searchAll r rest

/-- Evaluate `pattern.test(url)` — unanchored substring search. -/
def RE.test (r : RE) (s : String) : Bool :=
  searchAll r s.data

/-- Escaped atom `\c` outside a character class. -/
def escapeAtom (c : Char) : RE :=
  if c == 'd' then RE.cls false [ClassItem.digit]
  else if c == 'D' then RE.cls false [ClassItem.notDigit]
  else if c == 'w' then RE.cls false [ClassItem.word]
  else if c == 'W' then RE.cls false [ClassItem.notWord]
  else if c == 's' then RE.cls false [ClassItem.space]
  else if c == 'S' then RE.cls false [ClassItem.notSpace]
  else if c == 'n' then RE.chr '\n'
  else if c == 't' then RE.chr '\t'
  else if c == 'r' then RE.chr '\r'
  else RE.chr c

/-- Escaped item `\c` inside a character class. -/
def classEscape (c : Char) : ClassItem :=
  if c == 'd' then ClassItem.digit
  else if c == 'D' then ClassItem.notDigit
  else if c == 'w' then ClassItem.word
  else if c == 'W' then ClassItem.notWord
  else if c == 's' then ClassItem.space
  else if c == 'S' then ClassItem.notSpace
  else if c == 'n' then ClassItem.single '\n'
  else if c == 't' then ClassItem.single '\t'
  else if c == 'r' then ClassItem.single '\r'
  else ClassItem.single c

/-- Parse the items of a character class, up to the closing `]`; an
unterminated class is a syntax error. -/
def parseClassItems : List Char → Except String (List ClassItem × List Char)
  | [] => Except.error "Unterminated character class"
  | ']' :: rest => Except.ok ([], rest)
  | '\\' :: [] => Except.error "Unterminated character class"
  | '\\' :: c :: rest =>
    match parseClassItems rest with
    | Except.error e => Except.error e
    | Except.ok (items, rest2) => Except.ok (classEscape c :: items, rest2)
  | c :: '-' :: c2 :: rest =>
    if c2 == ']' then Except.ok ([ClassItem.single c, ClassItem.single '-'], rest)
    else
      match parseClassItems rest with
      | Except.error e => Except.error e
      | Except.ok (items, rest2) => Except.ok (ClassItem.range c c2 :: items, rest2)
  | c :: rest =>
    match parseClassItems rest with
    | Except.error e => Except.error e
    | Except.ok (items, rest2) => Except.ok (ClassItem.single c :: items, rest2)

/-- Parse a character class after its opening `[`. -/
def parseClass (cs : List Char) : Except String (RE × List Char) :=
  match cs with
  | '^' :: rest =>
    match parseClassItems rest with
    | Except.error e => Except.error e
    | Except.ok (items, rest2) => Except.ok (RE.cls true items, rest2)
  | _ =>
    match parseClassItems cs with
    | Except.error e => Except.error e
    | Except.ok (items, rest2) => Except.ok (RE.cls false items, rest2)

/-- Consume a lazy-quantifier marker `?` if present (laziness does not
change the accepted language, so it is dropped). -/
def stripLazy (cs : List Char) : List Char :=
  match cs with
  | '?' :: rest => rest
  | _ => cs

/-- Apply an optional quantifier `*`, `+` or `?` following an atom. -/
def applyQuant (a : RE) (cs : List Char) : RE × List Char :=
  match cs with
  | '*' :: rest => (RE.star a, stripLazy rest)
  | '+' :: rest => (RE.cat a (RE.star a), stripLazy rest)
  | '?' :: rest => (RE.alt RE.eps a, stripLazy rest)
  | _ => (a, cs)

mutual

/-- Parse an alternation `cat ('|' cat)*`. -/
def parseAltern (fuel : Nat) (cs : List Char) : Except String (RE × List Char) :=
  match fuel with
  | 0 => Except.error "out of fuel"
  | fuel' + 1 =>
    match parseSeq fuel' cs with
    | Except.error e => Except.error e
    | Except.ok (a, rest) =>
      match rest with
      | '|' :: rest2 =>
        match parseAltern fuel' rest2 with
        | Except.error e => Except.error e
        | Except.ok (b, rest3) => Except.ok (RE.alt a b, rest3)
      | _ => Except.ok (a, rest)

/-- Parse a concatenation of quantified atoms; a leading quantifier has
nothing to repeat and is a syntax error. -/
def parseSeq (fuel : Nat) (cs : List Char) : Except String (RE × List Char) :=
  match fuel with
  | 0 => Except.error "out of fuel"
  | fuel' + 1 =>
    match cs with
    | [] => Except.ok (RE.eps, [])
    | ')' :: _ => Except.ok (RE.eps, cs)
    | '|' :: _ => Except.ok (RE.eps, cs)
    | '*' :: _ => Except.error "Nothing to repeat"
    | '+' :: _ => Except.error "Nothing to repeat"
    | '?' :: _ => Except.error "Nothing to repeat"
    | _ =>
      match parseAtom fuel' cs with
      | Except.error e => Except.error e
      | Except.ok (a, rest) =>
        match applyQuant a rest with
        | (a2, rest2) =>
          match parseSeq fuel' rest2 with
          | Except.error e => Except.error e
          | Except.ok (b, rest3) => Except.ok (RE.cat a2 b, rest3)

/-- Parse one atom: a group, `.`, an escape, a character class or a
literal character; an unterminated group is a syntax error. -/
def parseAtom (fuel : Nat) (cs : List Char) : Except String (RE × List Char) :=
  match fuel with
  | 0 => Except.error "out of fuel"
  | fuel' + 1 =>
    match cs with
    | [] => Except.error "unexpected end of pattern"
    | '(' :: rest =>
      match parseAltern fuel' rest with
      | Except.error e => Except.error e
      | Except.ok (r, rest2) =>
        match rest2 with
        | ')' :: rest3 => Except.ok (r, rest3)
        | _ => Except.error "Unterminated group"
    | '.' :: rest => Except.ok (RE.anyChar, rest)
    | '\\' :: [] => Except.error "pattern may not end with a backslash"
    | '\\' :: c :: rest => Except.ok (escapeAtom c, rest)
    | '[' :: rest => parseClass rest
    | c :: rest => Except.ok (RE.chr c, rest)

end

/-- Model of `new RegExp(pat)`: compile a pattern, failing with a `SyntaxError`
(modelled as `WorkerError.regexInvalid pat`) on a malformed pattern; leftover
input after parsing is an unmatched `)`. -/
def compileRegex (pat : String) : Except WorkerError RE :=
  match parseAltern (4 * pat.data.length + 8) pat.data with
  | Except.ok (r, []) => Except.ok r
  | Except.ok (_, _ :: _) => Except.error (WorkerError.regexInvalid pat)
  | Except.error _ => Except.error (WorkerError.regexInvalid pat)

/-! ### The worker's data model -/

/-- The configuration object `env`.  `GITHUB_TOKEN`, `ALLOWED_PATHS` and
`ALLOWED_EXTENSIONS` may be `undefined` (`none`). -/
structure Env where
  GITHUB_OWNER : String
  GITHUB_REPO : String
  GITHUB_TOKEN : Option String
  ALLOWED_PATHS : Option String
  ALLOWED_EXTENSIONS : Option String

/-- The inbound request: method, URL pathname (the result of
`new URL(request.url).pathname`) and headers. -/
structure Req where
  method : String
  pathname : String
  headers : List (String × String)

/-- A `Response` value: status, statusText, headers and an optional body
(`none` models a `null` body). -/
structure Resp where
  status : Nat
  statusText : String
  headers : List (String × String)
  body : Option String

/-- The value `new Request(targetUrl, \x7b method: 'GET' \x7d)` used as the cache key:
the URL together with the fixed method. -/
structure CacheKey where
  url : String
  method : String
deriving DecidableEq

/-- The shared response cache `caches.default`, as explicit state. -/
abbrev Cache := List (CacheKey × Resp)

/-- Model of `cache.match(key)`: the most recently stored entry for the key. -/
def cacheMatch (cache : Cache) (key : CacheKey) : Option Resp :=
  match cache with
  | [] => none
  | (k, v) :: rest => if k = key then some v else cacheMatch rest key

/-- Model of `cache.put(key, resp)`: store, overriding any previous entry. -/
def cachePut (cache : Cache) (key : CacheKey) (v : Resp) : Cache :=
  (key, v) :: cache

/-- The outbound request built for the upstream fetch. -/
structure OutboundReq where
  url : String
  method : String
  headers : List (String × String)

/-- An upstream HTTP response as delivered by `fetch` (without a throw). -/
structure UpstreamResp where
  status : Nat
  statusText : String
  headers : List (String × String)
  body : Option String

/-- JavaScript `response.ok`: status in the range 200–299. -/
def respOk (r : UpstreamResp) : Bool :=
  decide (200 ≤ r.status) && decide (r.status ≤ 299)

/-- What one handler invocation produces besides the thrown-or-returned
response: the final cache state and whether the cache and the upstream
were contacted. -/
structure HandlerOut where
  response : Resp
  cache : Cache
  cacheAccessed : Bool
  upstreamCalled : Bool

/-! ### The worker's functions -/

/-- Function `stripBody` from src/index.ts: rebuild the response with a `null`
body, keeping status, statusText and headers. -/
def stripBody (response : Resp) : Resp :=
  { status := response.status
    statusText := response.statusText
    headers := response.headers
    body := none }

/-- Helper for `isAllowedPath` from src/index.ts.  A falsy `ALLOWED_PATHS`
(`undefined` or `""`) allows every path; otherwise the comma-separated
patterns are each trimmed and compiled (`compilePatterns` mirrors the
push loop, a compilation failure throws), and the path is allowed iff
some compiled pattern matches.  The `length === 0` branch of the source
is kept even though `split` never returns an empty array. -/
def compilePatterns : List String → Except WorkerError (List RE)
  | [] => Except.ok []
  | p :: rest =>
    match compileRegex (jsTrim p) with
    | Except.error e => Except.error e
    | Except.ok r =>
      match compilePatterns rest with
      | Except.error e => Except.error e
      | Except.ok rs => Except.ok (r :: rs)

/-- Function `isAllowedPath(env, url)` from src/index.ts. -/
def isAllowedPath (env : Env) (url : String) : Except WorkerError Bool :=
  match env.ALLOWED_PATHS with
  | none => Except.ok true
  | some s =>
    if s == "" then Except.ok true
    else
      match compilePatterns (jsSplitComma s) with
      | Except.error e => Except.error e
      | Except.ok allowedPackages =>
        if allowedPackages.length == 0 then Except.ok true
        else Except.ok (allowedPackages.any (fun pkg => pkg.test url))

/-- Function `isAllowedExtension(env, path)` from src/index.ts: `env.ALLOWED_EXTENSIONS.split(',')`
throws a `TypeError` when the field is `undefined`; otherwise the path is
allowed iff it ends with one of the comma-separated suffixes. -/
def isAllowedExtension (env : Env) (path : String) : Except WorkerError Bool :=
  match env.ALLOWED_EXTENSIONS with
  | none => Except.error (WorkerError.typeError "Cannot read properties of undefined")
  | some s => Except.ok ((jsSplitComma s).any (fun ext => jsEndsWith path ext))

/-- The `githubMavenUrl` template string. -/
def githubMavenUrlFor (env : Env) : String :=
  "https://maven.pkg.github.com/" ++ env.GITHUB_OWNER ++ "/" ++ env.GITHUB_REPO ++ "/"

/-- The string `targetUrl = githubMavenUrl + path`. -/
def targetUrlFor (env : Env) (req : Req) : String :=
  githubMavenUrlFor env ++ stripLeadingSlash req.pathname

/-- The cache key `new Request(targetUrl, \x7b method: 'GET' \x7d)` — it does not
depend on the inbound request's method. -/
def cacheKeyFor (env : Env) (req : Req) : CacheKey :=
  { url := targetUrlFor env req, method := "GET" }

/-- The constant `cacheTtl = 60 * 5`. -/
def cacheTtl : Nat := 60 * 5

/-- The `Cache-Control` value `public, max-age=${cacheTtl}`. -/
def cacheControlValue : String :=
  "public, max-age=" ++ toString cacheTtl

/-- The 404 response for a rejected path. -/
def badPathResponse : Resp :=
  { status := 404
    statusText := ""
    headers := [("Access-Control-Allow-Origin", "*")]
    body := some "Invalid request (bad path)" }

/-- The 404 response for a rejected extension. -/
def badExtensionResponse : Resp :=
  { status := 404
    statusText := ""
    headers := [("Access-Control-Allow-Origin", "*")]
    body := some "Invalid request (bad extension)" }

/-- The CORS preflight response for `OPTIONS` (a `null`-body `Response`
defaults to status 200). -/
def optionsResponse : Resp :=
  { status := 200
    statusText := ""
    headers := [("Access-Control-Allow-Origin", "*"),
                ("Access-Control-Allow-Methods", "GET, OPTIONS"),
                ("Access-Control-Allow-Headers", "Accept, HEAD")]
    body := none }

/-- The 405 response for a method other than GET, HEAD or OPTIONS. -/
def methodNotAllowedResponse : Resp :=
  { status := 405
    statusText := ""
    headers := [("Access-Control-Allow-Origin", "*")]
    body := some "Method not allowed" }

/-- The 500 response built both for a missing token and for a thrown
upstream fetch. -/
def internalServerErrorResponse : Resp :=
  { status := 500
    statusText := ""
    headers := []
    body := some "Internal server error" }

/-- The failure response built for a non-2xx upstream response: the
upstream status is mirrored, the body carries the upstream statusText,
and the CORS and `Cache-Control` headers are attached.  Note that the
source returns this response as-is, without `stripBody`, even when the
inbound method is HEAD. -/
def failResponse (response : UpstreamResp) : Resp :=
  { status := response.status
    statusText := ""
    headers := [("Access-Control-Allow-Origin", "*"),
                ("Cache-Control", cacheControlValue)]
    body := some ("Failed to fetch from GitHub Packages: " ++ response.statusText) }

/-- The response built for a 2xx upstream response: status, statusText,
headers and body are copied, then `Cache-Control` and
`Access-Control-Allow-Origin` are overwritten with `Headers.set`. -/
def successResponse (response : UpstreamResp) : Resp :=
  { status := response.status
    statusText := response.statusText
    headers := headersSet (headersSet response.headers "Cache-Control" cacheControlValue)
                 "Access-Control-Allow-Origin" "*"
    body := response.body }

/-- The `newRequest` built for the upstream fetch (lines 64–72): always a
GET, with the bearer token, the forwarded-or-default `Accept` header, the
fixed user agent, and a CORS header. -/
def newRequest (env : Env) (req : Req) (targetUrl : String) : OutboundReq :=
  { url := targetUrl
    method := "GET"
    headers := [("Authorization", "Bearer " ++ env.GITHUB_TOKEN.getD ""),
                ("Accept", jsOrDefault (headersGet req.headers "Accept")
                             "application/octet-stream"),
                ("User-Agent", "Cloudflare-Worker-Maven-Proxy"),
                ("Access-Control-Allow-Origin", "*")] }

/-- The exported `fetch` handler of src/index.ts, with the cache state
explicit and the upstream `fetch` passed as a function (`Except.error ()`
models a network-level throw, caught by the source's try/catch; the
remaining statements inside that try block are pure in this model and
cannot throw).  A `WorkerError` result models an exception escaping the
handler uncaught — the two authorizers run outside the try/catch. -/
def workerFetch (env : Env) (req : Req) (cache : Cache)
    (upstream : OutboundReq → Except Unit UpstreamResp) :
    Except WorkerError HandlerOut :=
  let path := stripLeadingSlash req.pathname
  match isAllowedPath env path with
  | Except.error e => Except.error e
  | Except.ok allowedPath =>
    if !allowedPath then
      Except.ok { response := badPathResponse, cache := cache,
                  cacheAccessed := false, upstreamCalled := false }
    else
      match isAllowedExtension env path with
      | Except.error e => Except.error e
      | Except.ok allowedExt =>
        if !allowedExt then
          Except.ok { response := badExtensionResponse, cache := cache,
                      cacheAccessed := false, upstreamCalled := false }
        else if req.method = "OPTIONS" then
          Except.ok { response := optionsResponse, cache := cache,
                      cacheAccessed := false, upstreamCalled := false }
        else if req.method ≠ "GET" ∧ req.method ≠ "HEAD" then
          Except.ok { response := methodNotAllowedResponse, cache := cache,
                      cacheAccessed := false, upstreamCalled := false }
        else
          match cacheMatch cache (cacheKeyFor env req) with
          | some cachedResponse =>
            Except.ok { response := if req.method = "HEAD" then stripBody cachedResponse
                                    else cachedResponse,
                        cache := cache, cacheAccessed := true, upstreamCalled := false }
          | none =>
            if !(jsTruthy env.GITHUB_TOKEN) then
              Except.ok { response := internalServerErrorResponse, cache := cache,
                          cacheAccessed := true, upstreamCalled := false }
            else
              match upstream (newRequest env req (targetUrlFor env req)) with
              | Except.error _ =>
                Except.ok { response := internalServerErrorResponse, cache := cache,
                            cacheAccessed := true, upstreamCalled := true }
              | Except.ok response =>
                if !(respOk response) then
                  Except.ok { response := failResponse response,
                              cache := cachePut cache (cacheKeyFor env req)
                                         (failResponse response),
                              cacheAccessed := true, upstreamCalled := true }
                else
                  Except.ok { response := if req.method = "HEAD"
                                          then stripBody (successResponse response)
                                          else successResponse response,
                              cache := cachePut cache (cacheKeyFor env req)
                                         (successResponse response),
                              cacheAccessed := true, upstreamCalled := true }

/-! ### Shared lemmas -/

/-- A freshly stored entry is what a subsequent lookup of the same key
returns. -/
theorem cacheMatch_cachePut_same (cache : Cache) (key : CacheKey) (v : Resp) :
    cacheMatch (cachePut cache key v) key = some v := by
  simp [cacheMatch, cachePut]

/-- If any pattern of the list fails to compile, the compilation loop as a
whole throws (the first failure wins); no pattern is silently skipped. -/
theorem compilePatterns_fails {l : List String} {p : String} (hmem : p ∈ l)
    (hbad : exceptFailed (compileRegex (jsTrim p)) = true) :
    exceptFailed (compilePatterns l) = true := by
  induction l with
  | nil => cases hmem
  | cons a tl ih =>
    rcases List.mem_cons.mp hmem with rfl | hmem2
    · cases hc : compileRegex (jsTrim p) with
      | error e => simp [compilePatterns, hc, exceptFailed]
      | ok r => rw [hc] at hbad; simp [exceptFailed] at hbad
    · cases hc : compileRegex (jsTrim a) with
      | error e => simp [compilePatterns, hc, exceptFailed]
      | ok r =>
        have htl := ih hmem2
        cases hcl : compilePatterns tl with
        | error e => simp [compilePatterns, hc, hcl, exceptFailed]
        | ok rs => rw [hcl] at htl; simp [exceptFailed] at htl

/-! ### Claim theorems -/

/-- Claim C9: if the path allow-list configuration is present but empty after
parsing — realized by `ALLOWED_PATHS = ""`, which is the only configuration
whose parse yields no usable entries, `split` never returning an empty
array — path authorization behaves as allow-all: `isAllowedPath` returns
`true` for every path (the empty string is falsy, so the source skips the
whole pattern block). -/
theorem empty_allowed_paths_allows_all (env : Env) (url : String)
    (h : env.ALLOWED_PATHS = some "") :
    isAllowedPath env url = Except.ok true := by
  simp [isAllowedPath, h]

/-- Witness for C9 at a concrete configuration and path. -/
theorem empty_allowed_paths_allows_all_witness :
    isAllowedPath
        { GITHUB_OWNER := "owner", GITHUB_REPO := "repo", GITHUB_TOKEN := some "tok",
          ALLOWED_PATHS := some "", ALLOWED_EXTENSIONS := some ".jar" }
        "com/example/lib-1.0.jar" = Except.ok true :=
  empty_allowed_paths_allows_all _ _ rfl

/-- Claim C10: if the configured extension allow-list string contains an
empty entry (for example a trailing comma, as in `".jar,"`), then
`isAllowedExtension` returns `true` for every path, because every string
ends with the empty suffix. -/
theorem empty_extension_entry_allows_all (env : Env) (path s : String)
    (hs : env.ALLOWED_EXTENSIONS = some s)
    (hmem : "" ∈ jsSplitComma s) :
    isAllowedExtension env path = Except.ok true := by
  simp only [isAllowedExtension, hs]
  simp only [Except.ok.injEq, List.any_eq_true]
  exact ⟨"", hmem, by simp [jsEndsWith, List.isSuffixOf, List.isPrefixOf]⟩

/-- Witness for C10: with `ALLOWED_EXTENSIONS = ".jar,"` even `README.md`
is allowed. -/
theorem empty_extension_entry_allows_all_witness :
    ("" ∈ jsSplitComma ".jar,") ∧
      isAllowedExtension
          { GITHUB_OWNER := "owner", GITHUB_REPO := "repo", GITHUB_TOKEN := some "tok",
            ALLOWED_PATHS := none, ALLOWED_EXTENSIONS := some ".jar," }
          "README.md" = Except.ok true :=
  ⟨by decide, empty_extension_entry_allows_all _ "README.md" ".jar," rfl (by decide)⟩

/-- Claim C1: the spec's invariant says a HEAD request never causes a body
to be transmitted downstream — on a cache hit, on a fresh 2xx fetch, and on
a non-2xx upstream response alike.  The code violates this on the non-2xx
fresh-fetch branch: the failure response is returned without `stripBody`,
so a HEAD request whose cache-miss fetch yields a 503 receives a non-empty
body (`Failed to fetch from GitHub Packages: ...`) together with the
mirrored status. -/
theorem head_fresh_failure_returns_body :
    (workerFetch
        { GITHUB_OWNER := "owner", GITHUB_REPO := "repo", GITHUB_TOKEN := some "tok",
          ALLOWED_PATHS := none, ALLOWED_EXTENSIONS := some ".jar" }
        { method := "HEAD", pathname := "/com/example/lib-1.0.jar", headers := [] }
        []
        (fun _ => Except.ok
          { status := 503, statusText := "Service Unavailable", headers := [],
            body := some "upstream error page" })).map
      (fun out => (out.response.status, out.response.body)) =
    Except.ok (503, some "Failed to fetch from GitHub Packages: Service Unavailable") := by
  rfl

/-- Counterexample to claim C2 as stated: an OPTIONS request whose path
fails the extension check is answered with the 404 denial, which carries
only `Access-Control-Allow-Origin` — not the fixed CORS preflight header
set (`Access-Control-Allow-Methods` is absent). -/
theorem options_denied_extension_lacks_preflight :
    workerFetch
        { GITHUB_OWNER := "owner", GITHUB_REPO := "repo", GITHUB_TOKEN := some "tok",
          ALLOWED_PATHS := none, ALLOWED_EXTENSIONS := some ".jar" }
        { method := "OPTIONS", pathname := "/notes.txt", headers := [] }
        [] (fun _ => Except.error ()) =
      Except.ok { response := badExtensionResponse, cache := [],
                  cacheAccessed := false, upstreamCalled := false } ∧
    headersGet badExtensionResponse.headers "Access-Control-Allow-Methods" = none :=
  ⟨rfl, rfl⟩

/-- Claim C2 (amended): an OPTIONS request never contacts the cache or the
upstream; when the path and extension checks pass, the response carries
exactly the fixed CORS preflight header set (`Access-Control-Allow-Origin:
*`, `Access-Control-Allow-Methods: GET, OPTIONS`,
`Access-Control-Allow-Headers: Accept, HEAD`) — a denied OPTIONS request
instead receives the 404 denial with only the allow-origin header. -/
theorem options_no_cache_no_upstream_and_preflight (env : Env) (req : Req)
    (cache : Cache) (upstream : OutboundReq → Except Unit UpstreamResp)
    (out : HandlerOut) (hm : req.method = "OPTIONS") :
    (workerFetch env req cache upstream = Except.ok out →
      out.cacheAccessed = false ∧ out.upstreamCalled = false ∧ out.cache = cache) ∧
    (isAllowedPath env (stripLeadingSlash req.pathname) = Except.ok true →
      isAllowedExtension env (stripLeadingSlash req.pathname) = Except.ok true →
      workerFetch env req cache upstream =
        Except.ok { response := optionsResponse, cache := cache,
                    cacheAccessed := false, upstreamCalled := false }) ∧
    headersGet optionsResponse.headers "Access-Control-Allow-Origin" = some "*" ∧
    headersGet optionsResponse.headers "Access-Control-Allow-Methods" = some "GET, OPTIONS" ∧
    headersGet optionsResponse.headers "Access-Control-Allow-Headers" = some "Accept, HEAD" := by
  refine ⟨?_, ?_, by rfl, by rfl, by rfl⟩
  · intro h
    simp only [workerFetch, hm] at h
    split at h
    · simp at h
    · split at h
      · rw [Except.ok.injEq] at h
        subst h
        exact ⟨rfl, rfl, rfl⟩
      · split at h
        · simp at h
        · split at h
          · rw [Except.ok.injEq] at h
            subst h
            exact ⟨rfl, rfl, rfl⟩
          · split at h
            · rw [Except.ok.injEq] at h
              subst h
              exact ⟨rfl, rfl, rfl⟩
            · exact absurd trivial (by assumption)
  · intro hp he
    simp [workerFetch, hp, he, hm]

/-- Witness for C2 (amended) at a concrete allowed OPTIONS request. -/
theorem options_preflight_witness :
    workerFetch
        { GITHUB_OWNER := "owner", GITHUB_REPO := "repo", GITHUB_TOKEN := some "tok",
          ALLOWED_PATHS := none, ALLOWED_EXTENSIONS := some ".jar" }
        { method := "OPTIONS", pathname := "/a.jar", headers := [] }
        [] (fun _ => Except.error ()) =
      Except.ok { response := optionsResponse, cache := [],
                  cacheAccessed := false, upstreamCalled := false } :=
  (options_no_cache_no_upstream_and_preflight _ _ _ _
      { response := optionsResponse, cache := [], cacheAccessed := false,
        upstreamCalled := false } rfl).2.1 rfl rfl

/-- Counterexample to claim C3 as stated: with the malformed pattern `"("`
configured, the request does not receive a 500 response — the `SyntaxError`
from matcher compilation escapes the handler uncaught (the source calls
`isAllowedPath` outside its try/catch), so no response at all is produced
by the worker code. -/
theorem malformed_pattern_throws_eval :
    workerFetch
        { GITHUB_OWNER := "owner", GITHUB_REPO := "repo", GITHUB_TOKEN := some "tok",
          ALLOWED_PATHS := some "(", ALLOWED_EXTENSIONS := some ".jar" }
        { method := "GET", pathname := "/a.jar", headers := [] }
        [] (fun _ => Except.error ()) =
      Except.error (WorkerError.regexInvalid "(") := by
  rfl

/-- Claim C3 (amended): a malformed pattern string in the configured
allow-list causes matcher compilation to fail, and the failure is not
silently skipped — but it surfaces as an exception thrown out of the
request handler (uncaught, since the authorizers run outside the
try/catch), not as a handler-produced 500 response with logging. -/
theorem malformed_pattern_error_propagates (env : Env) (req : Req) (cache : Cache)
    (upstream : OutboundReq → Except Unit UpstreamResp) (s p : String)
    (hs : env.ALLOWED_PATHS = some s) (hne : s ≠ "")
    (hmem : p ∈ jsSplitComma s)
    (hbad : exceptFailed (compileRegex (jsTrim p)) = true) :
    exceptFailed (workerFetch env req cache upstream) = true := by
  have hfail := compilePatterns_fails hmem hbad
  cases hcp : compilePatterns (jsSplitComma s) with
  | ok rs => rw [hcp] at hfail; simp [exceptFailed] at hfail
  | error e =>
    have hpath : isAllowedPath env (stripLeadingSlash req.pathname) = Except.error e := by
      simp [isAllowedPath, hs, hne, hcp]
    simp [workerFetch, hpath, exceptFailed]

/-- Witness for C3 (amended) at the concrete malformed pattern `"("`. -/
theorem malformed_pattern_error_propagates_witness :
    ("(" ∈ jsSplitComma "(") ∧ exceptFailed (compileRegex (jsTrim "(")) = true ∧
      exceptFailed (workerFetch
        { GITHUB_OWNER := "owner", GITHUB_REPO := "repo", GITHUB_TOKEN := some "tok",
          ALLOWED_PATHS := some "(", ALLOWED_EXTENSIONS := some ".jar" }
        { method := "GET", pathname := "/a.jar", headers := [] }
        [] (fun _ => Except.error ())) = true :=
  ⟨by decide, by decide,
    malformed_pattern_error_propagates _ _ _ _ "(" "(" rfl (by decide) (by decide) (by decide)⟩

/-- Counterexample to claim C4 as stated: with `ALLOWED_EXTENSIONS` absent
the affected request does not receive a 500 response — the `TypeError`
thrown by `env.ALLOWED_EXTENSIONS.split(',')` escapes the handler uncaught,
so no response at all is produced by the worker code. -/
theorem missing_extensions_no_500_response :
    workerFetch
        { GITHUB_OWNER := "owner", GITHUB_REPO := "repo", GITHUB_TOKEN := some "tok",
          ALLOWED_PATHS := none, ALLOWED_EXTENSIONS := none }
        { method := "GET", pathname := "/lib.pom", headers := [] }
        [] (fun _ => Except.error ()) =
      Except.error (WorkerError.typeError "Cannot read properties of undefined") := by
  rfl

/-- Claim C4 (amended): if the extension allow-list configuration value is
absent, the extension check throws a `TypeError` which propagates uncaught
out of the handler for every request that passes the path check — the
absence is not treated as a runtime allow-all, but neither does the worker
code itself build a 500 response for it. -/
theorem missing_extensions_uncaught_type_error (env : Env) (req : Req) (cache : Cache)
    (upstream : OutboundReq → Except Unit UpstreamResp)
    (hext : env.ALLOWED_EXTENSIONS = none)
    (hp : isAllowedPath env (stripLeadingSlash req.pathname) = Except.ok true) :
    workerFetch env req cache upstream =
      Except.error (WorkerError.typeError "Cannot read properties of undefined") := by
  simp [workerFetch, hp, isAllowedExtension, hext]

/-- Witness for C4 (amended) at a concrete configuration. -/
theorem missing_extensions_uncaught_type_error_witness :
    workerFetch
        { GITHUB_OWNER := "owner", GITHUB_REPO := "repo", GITHUB_TOKEN := some "tok",
          ALLOWED_PATHS := none, ALLOWED_EXTENSIONS := none }
        { method := "HEAD", pathname := "/a.jar", headers := [] }
        [] (fun _ => Except.error ()) =
      Except.error (WorkerError.typeError "Cannot read properties of undefined") :=
  missing_extensions_uncaught_type_error _ _ _ _ rfl rfl

/-- Claim C5: on a cache-miss GET/HEAD request whose upstream fetch returns
a non-2xx response, the handler returns a response mirroring the upstream
status, carrying `Cache-Control: public, max-age=300`, and stores that
failure response in the cache; a subsequent request to the same path is
then served the cached failure from the hit branch without calling the
upstream at all. -/
theorem miss_nonok_mirrors_status_and_negative_caches (env : Env) (req : Req)
    (cache : Cache) (upstream upstream2 : OutboundReq → Except Unit UpstreamResp)
    (u : UpstreamResp)
    (hm : req.method = "GET" ∨ req.method = "HEAD")
    (hp : isAllowedPath env (stripLeadingSlash req.pathname) = Except.ok true)
    (he : isAllowedExtension env (stripLeadingSlash req.pathname) = Except.ok true)
    (hmiss : cacheMatch cache (cacheKeyFor env req) = none)
    (ht : jsTruthy env.GITHUB_TOKEN = true)
    (hu : upstream (newRequest env req (targetUrlFor env req)) = Except.ok u)
    (hok : respOk u = false) :
    workerFetch env req cache upstream =
      Except.ok { response := failResponse u,
                  cache := cachePut cache (cacheKeyFor env req) (failResponse u),
                  cacheAccessed := true, upstreamCalled := true } ∧
    (failResponse u).status = u.status ∧
    headersGet (failResponse u).headers "Cache-Control" = some "public, max-age=300" ∧
    workerFetch env req (cachePut cache (cacheKeyFor env req) (failResponse u)) upstream2 =
      Except.ok { response := if req.method = "HEAD" then stripBody (failResponse u)
                              else failResponse u,
                  cache := cachePut cache (cacheKeyFor env req) (failResponse u),
                  cacheAccessed := true, upstreamCalled := false } := by
  refine ⟨?_, rfl, by rfl, ?_⟩
  · obtain hm | hm := hm <;>
      simp [workerFetch, hp, he, hm, hmiss, ht, hu, hok]
  · obtain hm | hm := hm <;>
      simp [workerFetch, hp, he, hm, cacheMatch_cachePut_same]

/-- Witness for C5: a concrete 503 from the upstream is mirrored and the
failure entry is stored under the request's cache key. -/
theorem miss_nonok_witness :
    workerFetch
        { GITHUB_OWNER := "owner", GITHUB_REPO := "repo", GITHUB_TOKEN := some "tok",
          ALLOWED_PATHS := none, ALLOWED_EXTENSIONS := some ".jar" }
        { method := "GET", pathname := "/a/b.jar", headers := [] }
        []
        (fun _ => Except.ok
          { status := 503, statusText := "Service Unavailable", headers := [],
            body := some "page" }) =
      Except.ok
        { response := failResponse
            { status := 503, statusText := "Service Unavailable", headers := [],
              body := some "page" },
          cache := cachePut []
            (cacheKeyFor
              { GITHUB_OWNER := "owner", GITHUB_REPO := "repo", GITHUB_TOKEN := some "tok",
                ALLOWED_PATHS := none, ALLOWED_EXTENSIONS := some ".jar" }
              { method := "GET", pathname := "/a/b.jar", headers := [] })
            (failResponse
              { status := 503, statusText := "Service Unavailable", headers := [],
                body := some "page" }),
          cacheAccessed := true, upstreamCalled := true } :=
  (miss_nonok_mirrors_status_and_negative_caches
      { GITHUB_OWNER := "owner", GITHUB_REPO := "repo", GITHUB_TOKEN := some "tok",
        ALLOWED_PATHS := none, ALLOWED_EXTENSIONS := some ".jar" }
      { method := "GET", pathname := "/a/b.jar", headers := [] }
      []
      (fun _ => Except.ok
        { status := 503, statusText := "Service Unavailable", headers := [],
          body := some "page" })
      (fun _ => Except.error ())
      { status := 503, statusText := "Service Unavailable", headers := [],
        body := some "page" }
      (Or.inl rfl) rfl rfl rfl rfl rfl rfl).1

/-- Claim C6: on a cache-miss GET/HEAD request whose upstream fetch throws
at the network level, the handler returns the 500 internal-error response
and leaves the cache exactly as it was — no entry is stored. -/
theorem network_failure_500_cache_unchanged (env : Env) (req : Req) (cache : Cache)
    (upstream : OutboundReq → Except Unit UpstreamResp)
    (hm : req.method = "GET" ∨ req.method = "HEAD")
    (hp : isAllowedPath env (stripLeadingSlash req.pathname) = Except.ok true)
    (he : isAllowedExtension env (stripLeadingSlash req.pathname) = Except.ok true)
    (hmiss : cacheMatch cache (cacheKeyFor env req) = none)
    (ht : jsTruthy env.GITHUB_TOKEN = true)
    (hu : upstream (newRequest env req (targetUrlFor env req)) = Except.error ()) :
    workerFetch env req cache upstream =
      Except.ok { response := internalServerErrorResponse, cache := cache,
                  cacheAccessed := true, upstreamCalled := true } ∧
    internalServerErrorResponse.status = 500 := by
  refine ⟨?_, rfl⟩
  obtain hm | hm := hm <;>
    simp [workerFetch, hp, he, hm, hmiss, ht, hu]

/-- Witness for C6 at a concrete request with a throwing upstream. -/
theorem network_failure_witness :
    workerFetch
        { GITHUB_OWNER := "owner", GITHUB_REPO := "repo", GITHUB_TOKEN := some "tok",
          ALLOWED_PATHS := none, ALLOWED_EXTENSIONS := some ".jar" }
        { method := "GET", pathname := "/a/b.jar", headers := [] }
        [] (fun _ => Except.error ()) =
      Except.ok { response := internalServerErrorResponse, cache := [],
                  cacheAccessed := true, upstreamCalled := true } ∧
    internalServerErrorResponse.status = 500 :=
  network_failure_500_cache_unchanged
    { GITHUB_OWNER := "owner", GITHUB_REPO := "repo", GITHUB_TOKEN := some "tok",
      ALLOWED_PATHS := none, ALLOWED_EXTENSIONS := some ".jar" }
    { method := "GET", pathname := "/a/b.jar", headers := [] }
    [] (fun _ => Except.error ()) (Or.inl rfl) rfl rfl rfl rfl rfl

/-- Claim C7: with no credential configured, every GET/HEAD request that
reaches the cache-miss branch returns the 500 internal-error response and
the upstream is never called — the result does not depend on the upstream
function at all, and `upstreamCalled` is `false`. -/
theorem missing_token_500_no_upstream (env : Env) (req : Req) (cache : Cache)
    (upstream : OutboundReq → Except Unit UpstreamResp)
    (hm : req.method = "GET" ∨ req.method = "HEAD")
    (hp : isAllowedPath env (stripLeadingSlash req.pathname) = Except.ok true)
    (he : isAllowedExtension env (stripLeadingSlash req.pathname) = Except.ok true)
    (hmiss : cacheMatch cache (cacheKeyFor env req) = none)
    (ht : env.GITHUB_TOKEN = none) :
    workerFetch env req cache upstream =
      Except.ok { response := internalServerErrorResponse, cache := cache,
                  cacheAccessed := true, upstreamCalled := false } ∧
    internalServerErrorResponse.status = 500 := by
  refine ⟨?_, rfl⟩
  obtain hm | hm := hm <;>
    simp [workerFetch, hp, he, hm, hmiss, ht, jsTruthy]

/-- Witness for C7 at a concrete request, with an upstream function that
would return a 200 if it were (wrongly) called. -/
theorem missing_token_witness :
    workerFetch
        { GITHUB_OWNER := "owner", GITHUB_REPO := "repo", GITHUB_TOKEN := none,
          ALLOWED_PATHS := none, ALLOWED_EXTENSIONS := some ".jar" }
        { method := "HEAD", pathname := "/a/b.jar", headers := [] }
        []
        (fun _ => Except.ok
          { status := 200, statusText := "OK", headers := [], body := some "BYTES" }) =
      Except.ok { response := internalServerErrorResponse, cache := [],
                  cacheAccessed := true, upstreamCalled := false } ∧
    internalServerErrorResponse.status = 500 :=
  missing_token_500_no_upstream
    { GITHUB_OWNER := "owner", GITHUB_REPO := "repo", GITHUB_TOKEN := none,
      ALLOWED_PATHS := none, ALLOWED_EXTENSIONS := some ".jar" }
    { method := "HEAD", pathname := "/a/b.jar", headers := [] }
    []
    (fun _ => Except.ok
      { status := 200, statusText := "OK", headers := [], body := some "BYTES" })
    (Or.inr rfl) rfl rfl rfl rfl

/-- Claim C8: GET and HEAD to the same path address the same cache key
(the key is built from the target URL with a fixed GET method), and a HEAD
request to a path whose entry was populated by a prior GET (a cache-miss
2xx fetch) is served from that same entry: it returns the same status and
the same headers as the GET response, with an empty body, without calling
the upstream. -/
theorem head_after_get_same_status_headers_empty_body (env : Env) (reqG reqH : Req)
    (cache : Cache) (upstream upstream2 : OutboundReq → Except Unit UpstreamResp)
    (u : UpstreamResp)
    (hG : reqG.method = "GET") (hH : reqH.method = "HEAD")
    (hpath : reqH.pathname = reqG.pathname)
    (hp : isAllowedPath env (stripLeadingSlash reqG.pathname) = Except.ok true)
    (he : isAllowedExtension env (stripLeadingSlash reqG.pathname) = Except.ok true)
    (hmiss : cacheMatch cache (cacheKeyFor env reqG) = none)
    (ht : jsTruthy env.GITHUB_TOKEN = true)
    (hu : upstream (newRequest env reqG (targetUrlFor env reqG)) = Except.ok u)
    (hok : respOk u = true) :
    cacheKeyFor env reqH = cacheKeyFor env reqG ∧
    workerFetch env reqG cache upstream =
      Except.ok { response := successResponse u,
                  cache := cachePut cache (cacheKeyFor env reqG) (successResponse u),
                  cacheAccessed := true, upstreamCalled := true } ∧
    workerFetch env reqH (cachePut cache (cacheKeyFor env reqG) (successResponse u)) upstream2 =
      Except.ok { response := stripBody (successResponse u),
                  cache := cachePut cache (cacheKeyFor env reqG) (successResponse u),
                  cacheAccessed := true, upstreamCalled := false } ∧
    (stripBody (successResponse u)).status = (successResponse u).status ∧
    (stripBody (successResponse u)).headers = (successResponse u).headers ∧
    (stripBody (successResponse u)).body = none := by
  have hkey : cacheKeyFor env reqH = cacheKeyFor env reqG := by
    simp [cacheKeyFor, targetUrlFor, hpath]
  refine ⟨hkey, ?_, ?_, rfl, rfl, rfl⟩
  · simp [workerFetch, hp, he, hG, hmiss, ht, hu, hok]
  · rw [show cachePut cache (cacheKeyFor env reqG) (successResponse u) =
          cachePut cache (cacheKeyFor env reqH) (successResponse u) from by rw [hkey]]
    simp [workerFetch, hH, hpath, hp, he, cacheMatch_cachePut_same]

/-- Witness for C8: after a concrete GET populates the cache, a concrete
HEAD to the same path is served the stored entry with the body stripped. -/
theorem head_after_get_witness :
    workerFetch
        { GITHUB_OWNER := "owner", GITHUB_REPO := "repo", GITHUB_TOKEN := some "tok",
          ALLOWED_PATHS := none, ALLOWED_EXTENSIONS := some ".jar" }
        { method := "HEAD", pathname := "/a/b.jar", headers := [] }
        (cachePut []
          (cacheKeyFor
            { GITHUB_OWNER := "owner", GITHUB_REPO := "repo", GITHUB_TOKEN := some "tok",
              ALLOWED_PATHS := none, ALLOWED_EXTENSIONS := some ".jar" }
            { method := "GET", pathname := "/a/b.jar", headers := [] })
          (successResponse
            { status := 200, statusText := "OK",
              headers := [("Content-Type", "application/java-archive")],
              body := some "BYTES" }))
        (fun _ => Except.error ()) =
      Except.ok
        { response := stripBody (successResponse
            { status := 200, statusText := "OK",
              headers := [("Content-Type", "application/java-archive")],
              body := some "BYTES" }),
          cache := cachePut []
            (cacheKeyFor
              { GITHUB_OWNER := "owner", GITHUB_REPO := "repo", GITHUB_TOKEN := some "tok",
                ALLOWED_PATHS := none, ALLOWED_EXTENSIONS := some ".jar" }
              { method := "GET", pathname := "/a/b.jar", headers := [] })
            (successResponse
              { status := 200, statusText := "OK",
                headers := [("Content-Type", "application/java-archive")],
                body := some "BYTES" }),
          cacheAccessed := true, upstreamCalled := false } :=
  (head_after_get_same_status_headers_empty_body
      { GITHUB_OWNER := "owner", GITHUB_REPO := "repo", GITHUB_TOKEN := some "tok",
        ALLOWED_PATHS := none, ALLOWED_EXTENSIONS := some ".jar" }
      { method := "GET", pathname := "/a/b.jar", headers := [] }
      { method := "HEAD", pathname := "/a/b.jar", headers := [] }
      []
      (fun _ => Except.ok
        { status := 200, statusText := "OK",
          headers := [("Content-Type", "application/java-archive")],
          body := some "BYTES" })
      (fun _ => Except.error ())
      { status := 200, statusText := "OK",
        headers := [("Content-Type", "application/java-archive")],
        body := some "BYTES" }
      rfl rfl rfl rfl rfl rfl rfl rfl rfl).2.2.1
